import Mathlib

/-!
Shallow embedding of the GBCS-Prototype front-end (a Vue prototype for
plant-leaf classification) and proofs about it.

Sources embedded:
* `src/leaf-classification-prototype/src/components/LiveIdentification.vue`
  (live identification view: file handling, mock classification, camera
  lifecycle and error classification) — namespaces `Live` and `Cam`;
* the benchmark/training component (dataset profiles, folder attachment,
  mock pipeline, run history, baseline toggle) — namespace `Bench`.

Timers (`setTimeout` callbacks) are embedded as explicit step functions on
the component state; browser events (camera grant/deny, close, unmount)
as an event step function over event traces.

JavaScript string primitives (`startsWith`, `endsWith`, `toLowerCase`,
`includes`, `split(/[/\\]/)`) are embedded as structurally recursive
functions over the character list of a `String`, so that every proof can
be checked by evaluation.
-/

/-- JS `s.startsWith(pre)`. -/
def strStartsWith (s pre : String) : Bool :=
  List.isPrefixOf pre.toList s.toList

/-- JS `s.endsWith(suf)`. -/
def strEndsWith (s suf : String) : Bool :=
  List.isSuffixOf suf.toList s.toList

/-- JS `s.toLowerCase()` (on the ASCII alphabet used by this code base). -/
def lowerStr (s : String) : String :=
  ⟨s.toList.map Char.toLower⟩

/-- Occurrence test behind JS `s.includes(pat)`. -/
def includesChars (s pat : List Char) : Bool :=
  match s with
  | [] => pat.isEmpty
  | _ :: rest => List.isPrefixOf pat s || includesChars rest pat

/-- JS `s.includes(pat)`. -/
def strIncludes (s pat : String) : Bool :=
  includesChars s.toList pat.toList

/-- JS `raw.split(/[/\\]/)` on the character list: splits at every `/` or
`\` separator, keeping empty segments, and yields `[[]]` on the empty
string. -/
def splitOnSeps : List Char → List (List Char)
  | [] => [[]]
  | c :: cs =>
    let rest := splitOnSeps cs
    if c = '/' ∨ c = '\\' then [] :: rest
    else
      match rest with
      | [] => [[c]]
      | seg :: segs => (c :: seg) :: segs

/-- The segments of JS `raw.split(/[/\\]/)` as strings. -/
def splitPath (raw : String) : List String :=
  (splitOnSeps raw.toList).map (fun cs => ⟨cs⟩)

/-- The last path segment of a raw path (the last entry of `splitPath`,
which is always non-empty as a list). -/
def lastPathSegment (raw : String) : String :=
  ((splitPath raw).getLast?).getD ""

namespace Live

/-- Stage enumeration of the live view (`type Stage = 'idle' | 'processing' | 'done'`). -/
inductive LiveStage where
  | idle
  | processing
  | done
deriving DecidableEq

/-- A file as seen by the handler: its `name` and declared mime `type`. -/
structure LiveFile where
  name : String
  type : String
deriving DecidableEq

/-- The classification-related refs of the live view component. -/
structure LiveState where
  stage : LiveStage
  selectedFileName : Option String
  predictedSpecies : Option String
  confidence : Option ℚ
deriving DecidableEq

/-- Initial ref values of the live view. -/
def liveInit : LiveState :=
  { stage := LiveStage.idle
    selectedFileName := none
    predictedSpecies := none
    confidence := none }

/-- `resetResults`: clears the prediction fields. -/
def resetResults (s : LiveState) : LiveState :=
  { s with predictedSpecies := none, confidence := none }

/-- `runClassification` up to the point where the timeout is scheduled:
resets results and enters the `processing` stage. -/
def runClassification (s : LiveState) : LiveState :=
  { resetResults s with stage := LiveStage.processing }

/-- The `setTimeout` callback of `runClassification`: after 1500 ms the view
enters `done` and publishes the hard-coded species and confidence. -/
def classificationTimerFire (s : LiveState) : LiveState :=
  { s with
    stage := LiveStage.done
    predictedSpecies := some "Banaba (Lagerstroemia speciosa)"
    confidence := some (99.2 : ℚ) }

/-- Result of `handleFiles`: the new state plus the alert message, if one
was raised via `alert(...)`. -/
structure HandleFilesResult where
  state : LiveState
  alertRaised : Option String
deriving DecidableEq

/-- `handleFiles`: takes the first file of the list; a missing file is
ignored, a non-`image/*` mime type raises a blocking alert and leaves the
state alone, an image file records its name and starts the classification. -/
def handleFiles (s : LiveState) : List LiveFile → HandleFilesResult
  | [] => { state := s, alertRaised := none }
  | file :: _ =>
    if strStartsWith file.type "image/" then
      { state := runClassification { s with selectedFileName := some file.name }
        alertRaised := none }
    else
      { state := s
        alertRaised := some "Please upload a plant leaf image (JPG/PNG/TIFF)." }

end Live

/-- C1: a file with an `image/*` declared mime type moves the live view from
`idle` to `processing`, and the classification timer then moves it to `done`
with the constant species `Banaba (Lagerstroemia speciosa)` and the constant
confidence `99.2` published. -/
theorem live_valid_image_flow (s : Live.LiveState) (f : Live.LiveFile)
    (rest : List Live.LiveFile)
    (hidle : s.stage = Live.LiveStage.idle)
    (himg : strStartsWith f.type "image/" = true) :
    (Live.handleFiles s (f :: rest)).alertRaised = none ∧
    (Live.handleFiles s (f :: rest)).state.stage = Live.LiveStage.processing ∧
    (Live.handleFiles s (f :: rest)).state.selectedFileName = some f.name ∧
    (Live.handleFiles s (f :: rest)).state.predictedSpecies = none ∧
    (Live.handleFiles s (f :: rest)).state.confidence = none ∧
    (Live.classificationTimerFire (Live.handleFiles s (f :: rest)).state).stage
      = Live.LiveStage.done ∧
    (Live.classificationTimerFire (Live.handleFiles s (f :: rest)).state).predictedSpecies
      = some "Banaba (Lagerstroemia speciosa)" ∧
    (Live.classificationTimerFire (Live.handleFiles s (f :: rest)).state).confidence
      = some (99.2 : ℚ) := by
  simp [Live.handleFiles, himg, Live.runClassification, Live.resetResults,
    Live.classificationTimerFire]

/-- Witness for C1: the flow evaluated on the initial state and a concrete
PNG file. -/
theorem live_valid_image_flow_witness :
    Live.liveInit.stage = Live.LiveStage.idle ∧
    (strStartsWith "image/png" "image/" = true) ∧
    ((Live.handleFiles Live.liveInit [⟨"leaf.png", "image/png"⟩]).state.stage
      = Live.LiveStage.processing ∧
     (Live.classificationTimerFire
        (Live.handleFiles Live.liveInit [⟨"leaf.png", "image/png"⟩]).state).confidence
      = some (99.2 : ℚ)) := by
  refine ⟨rfl, by decide, ?_⟩
  have h := live_valid_image_flow Live.liveInit ⟨"leaf.png", "image/png"⟩ [] rfl (by decide)
  exact ⟨h.2.1, h.2.2.2.2.2.2.2⟩

/-- C4: a file whose declared mime type does not start with `image/` raises
the blocking alert and leaves the whole state unchanged (in particular the
stage, selected file name, species and confidence). -/
theorem live_invalid_file_rejected (s : Live.LiveState) (f : Live.LiveFile)
    (rest : List Live.LiveFile)
    (hnot : strStartsWith f.type "image/" = false) :
    (Live.handleFiles s (f :: rest)).alertRaised
      = some "Please upload a plant leaf image (JPG/PNG/TIFF)." ∧
    (Live.handleFiles s (f :: rest)).state = s := by
  simp [Live.handleFiles, hnot]

/-- Witness for C4: a text file on the initial (idle) state. -/
theorem live_invalid_file_rejected_witness :
    (strStartsWith "text/plain" "image/" = false) ∧
    ((Live.handleFiles Live.liveInit [⟨"notes.txt", "text/plain"⟩]).state = Live.liveInit ∧
     (Live.handleFiles Live.liveInit [⟨"notes.txt", "text/plain"⟩]).state.stage
       = Live.LiveStage.idle) := by
  refine ⟨by decide, ?_⟩
  have h := live_invalid_file_rejected Live.liveInit ⟨"notes.txt", "text/plain"⟩ [] (by decide)
  exact ⟨h.2, by rw [h.2]; rfl⟩

namespace Cam

/-- The camera-related refs of the live view component: the overlay flag,
the inline error text, the stored media stream (as its list of track ids)
and, for the resource accounting, the set of tracks that have been started
by `getUserMedia` and not yet stopped.  `acquisitionPending` records that
`startCamera` is suspended awaiting `getUserMedia`. -/
structure CamState where
  isCameraOpen : Bool
  cameraError : Option String
  cameraStream : Option (List Nat)
  acquisitionPending : Bool
  activeTracks : List Nat
deriving DecidableEq

/-- Initial camera refs: overlay closed, no error, no stream, no tracks. -/
def camInit : CamState :=
  { isCameraOpen := false
    cameraError := none
    cameraStream := none
    acquisitionPending := false
    activeTracks := [] }

/-- The four user-facing error texts of `startCamera`'s catch clause. -/
def permissionDeniedMsg : String :=
  "Camera permission denied. Please allow camera access in your browser settings."

/-- Error text for the not-found category. -/
def noCameraMsg : String :=
  "No camera found on this device."

/-- Error text for the device-busy category. -/
def cameraBusyMsg : String :=
  "Camera is already in use by another application."

/-- Error text for the other/unknown category (JS
`Unable to access camera: ${err.message || 'Unknown error'}.`). -/
def unknownCameraMsg (message : String) : String :=
  "Unable to access camera: " ++ (if message = "" then "Unknown error" else message) ++ "."

/-- The error classification of `startCamera`'s catch clause, keyed on the
browser-reported `err.name` with `err.message` feeding the fallback text. -/
def classifyCameraError (name message : String) : String :=
  if name = "NotAllowedError" ∨ name = "PermissionDeniedError" then
    permissionDeniedMsg
  else if name = "NotFoundError" ∨ name = "DevicesNotFoundError" then
    noCameraMsg
  else if name = "NotReadableError" ∨ name = "TrackStartError" then
    cameraBusyMsg
  else
    unknownCameraMsg message

/-- `stopCamera`: stops every track of the stored stream and clears the
stream ref; a missing stream leaves everything alone. -/
def stopCamera (s : CamState) : CamState :=
  match s.cameraStream with
  | some ts =>
    { s with
      activeTracks := s.activeTracks.filter (fun t => !(ts.contains t))
      cameraStream := none }
  | none => s

/-- The browser-visible camera events: `openCam` is `openCamera` entering
`startCamera` up to the suspension on `getUserMedia`; `grant`/`deny` are the
resolution or final rejection of that acquisition (a granted stream's tracks
start live); `closeCam` is `closeCamera`; `unmount` the `onBeforeUnmount`
hook. -/
inductive CamEvent where
  | openCam
  | grant (tracks : List Nat)
  | deny (name message : String)
  | closeCam
  | unmount
deriving DecidableEq

/-- One event step of the camera lifecycle. -/
def camStep (s : CamState) : CamEvent → CamState
  | CamEvent.openCam =>
    { s with isCameraOpen := true, cameraError := none, acquisitionPending := true }
  | CamEvent.grant ts =>
    { s with
      cameraStream := some ts
      activeTracks := s.activeTracks ++ ts
      acquisitionPending := false }
  | CamEvent.deny name message =>
    { s with
      cameraError := some (classifyCameraError name message)
      acquisitionPending := false }
  | CamEvent.closeCam => { stopCamera s with isCameraOpen := false }
  | CamEvent.unmount => stopCamera s

/-- Running a trace of camera events. -/
def camRun (s : CamState) (es : List CamEvent) : CamState :=
  es.foldl camStep s

/-- An event is possible in the browser only in certain states: a second
`openCamera` needs the overlay closed, an acquisition settles only while
one is pending, and a close or unmount is "settled" when no acquisition is
pending. -/
def camAllowed (s : CamState) : CamEvent → Bool
  | CamEvent.openCam => !s.isCameraOpen && !s.acquisitionPending
  | CamEvent.grant _ => s.acquisitionPending
  | CamEvent.deny _ _ => s.acquisitionPending
  | CamEvent.closeCam => !s.acquisitionPending
  | CamEvent.unmount => !s.acquisitionPending

/-- A trace is settled-well-behaved from a state when every event is
possible (in particular, no close or unmount happens while an acquisition
is still pending). -/
def camWB : CamState → List CamEvent → Bool
  | _, [] => true
  | s, e :: es => camAllowed s e && camWB (camStep s e) es

/-- Resource invariant of the camera lifecycle: the live tracks are exactly
the stored stream's tracks, a pending acquisition means no stream is stored
yet and the overlay is open, and a closed overlay stores no stream. -/
def CamInv (s : CamState) : Prop :=
  s.activeTracks = s.cameraStream.getD [] ∧
  (s.acquisitionPending = true → s.cameraStream = none ∧ s.isCameraOpen = true) ∧
  (s.isCameraOpen = false → s.cameraStream = none)

end Cam

namespace Cam

theorem filter_not_contains_self (l : List Nat) :
    l.filter (fun t => !(l.contains t)) = [] := by
  apply List.filter_eq_nil_iff.mpr
  intro a ha
  simp [ha]

theorem camInv_init : CamInv camInit := by
  refine ⟨rfl, ?_, ?_⟩
  · intro h
    simp [camInit] at h
  · intro h
    rfl

theorem camInv_step (s : CamState) (e : CamEvent)
    (hinv : CamInv s) (hok : camAllowed s e = true) : CamInv (camStep s e) := by
  obtain ⟨h1, h2, h3⟩ := hinv
  cases e with
  | openCam =>
    simp only [camAllowed, Bool.and_eq_true, Bool.not_eq_true'] at hok
    refine ⟨h1, ?_, ?_⟩ <;> intro h
    · exact ⟨h3 hok.1, rfl⟩
    · simp [camStep] at h
  | grant ts =>
    simp only [camAllowed] at hok
    obtain ⟨hstream, hopen⟩ := h2 hok
    refine ⟨?_, ?_, ?_⟩
    · simp [camStep, h1, hstream]
    · intro h; simp [camStep] at h
    · intro h; simp [camStep, hopen] at h
  | deny name message =>
    simp only [camAllowed] at hok
    obtain ⟨hstream, hopen⟩ := h2 hok
    refine ⟨?_, ?_, ?_⟩
    · simpa [camStep] using h1
    · intro h; simp [camStep] at h
    · intro h; simp [camStep, hopen] at h
  | closeCam =>
    refine ⟨?_, ?_, ?_⟩
    · cases hs : s.cameraStream with
      | none => simp [camStep, stopCamera, hs, h1, hs ▸ h1]
      | some ts =>
        have hact : s.activeTracks = ts := by simpa [hs] using h1
        simp only [camStep, stopCamera, hs, Option.getD_none]
        rw [hact]
        exact filter_not_contains_self ts
    · intro h
      simp only [camAllowed, Bool.not_eq_true'] at hok
      cases hs : s.cameraStream <;> simp [camStep, stopCamera, hs, hok] at h
    · intro h
      cases hs : s.cameraStream <;> simp [camStep, stopCamera, hs]
  | unmount =>
    refine ⟨?_, ?_, ?_⟩
    · cases hs : s.cameraStream with
      | none => simp [camStep, stopCamera, hs, hs ▸ h1]
      | some ts =>
        have hact : s.activeTracks = ts := by simpa [hs] using h1
        simp only [camStep, stopCamera, hs, Option.getD_none]
        rw [hact]
        exact filter_not_contains_self ts
    · intro h
      simp only [camAllowed, Bool.not_eq_true'] at hok
      cases hs : s.cameraStream <;> simp [camStep, stopCamera, hs, hok] at h
    · intro h
      cases hs : s.cameraStream <;> simp [camStep, stopCamera, hs]

theorem camInv_run (s : CamState) (es : List CamEvent)
    (hinv : CamInv s) (hwb : camWB s es = true) : CamInv (camRun s es) := by
  induction es generalizing s with
  | nil => exact hinv
  | cons e es ih =>
    simp only [camWB, Bool.and_eq_true] at hwb
    exact ih (camStep s e) (camInv_step s e hinv hwb.1) hwb.2

theorem camWB_append (s : CamState) (es fs : List CamEvent) :
    camWB s (es ++ fs) = (camWB s es && camWB (camRun s es) fs) := by
  induction es generalizing s with
  | nil => simp [camWB, camRun]
  | cons e es ih =>
    calc camWB s ((e :: es) ++ fs)
        = (camAllowed s e && camWB (camStep s e) (es ++ fs)) := rfl
      _ = (camAllowed s e &&
            (camWB (camStep s e) es && camWB (camRun (camStep s e) es) fs)) := by
          rw [ih]
      _ = ((camAllowed s e && camWB (camStep s e) es) &&
            camWB (camRun (camStep s e) es) fs) := by
          rw [Bool.and_assoc]
      _ = (camWB s (e :: es) && camWB (camRun s (e :: es)) fs) := rfl

theorem camRun_append (s : CamState) (es fs : List CamEvent) :
    camRun s (es ++ fs) = camRun (camRun s es) fs := by
  simp [camRun, List.foldl_append]

end Cam

namespace Cam

theorem stopCamera_of_inv (s : CamState) (hinv : CamInv s) :
    (stopCamera s).activeTracks = [] ∧ (stopCamera s).cameraStream = none := by
  obtain ⟨h1, -, -⟩ := hinv
  cases hs : s.cameraStream with
  | none =>
    have hact : s.activeTracks = [] := by simpa [hs] using h1
    simp [stopCamera, hs, hact]
  | some ts =>
    have hact : s.activeTracks = ts := by simpa [hs] using h1
    constructor
    · show (stopCamera s).activeTracks = []
      simp only [stopCamera, hs]
      rw [hact]
      exact filter_not_contains_self ts
    · show (stopCamera s).cameraStream = none
      simp [stopCamera, hs]

end Cam

/-- C6 counterexample: opening the camera, closing the overlay while the
acquisition is still pending, and then having `getUserMedia` resolve with a
track, ends with the overlay closed but one still-active track and the
stream still stored — so a close during a pending acquisition does not
leave zero active media tracks. -/
theorem camera_pending_close_counterexample :
    (Cam.camRun Cam.camInit
        [Cam.CamEvent.openCam, Cam.CamEvent.closeCam, Cam.CamEvent.grant [0]]).isCameraOpen
      = false ∧
    (Cam.camRun Cam.camInit
        [Cam.CamEvent.openCam, Cam.CamEvent.closeCam, Cam.CamEvent.grant [0]]).activeTracks
      = [0] ∧
    (Cam.camRun Cam.camInit
        [Cam.CamEvent.openCam, Cam.CamEvent.closeCam, Cam.CamEvent.grant [0]]).cameraStream
      = some [0] := by
  decide

/-- C6 (amended): along every camera-event trace in which closes and
unmounts happen only while no acquisition is pending (and acquisitions
settle only while pending), a trace ending in `closeCamera` ends with no
active media tracks, the stream ref cleared and the overlay closed, and a
trace ending in the unmount hook ends with no active tracks and the stream
ref cleared. -/
theorem camera_settled_close_releases_tracks (es : List Cam.CamEvent) :
    (Cam.camWB Cam.camInit (es ++ [Cam.CamEvent.closeCam]) = true →
      (Cam.camRun Cam.camInit (es ++ [Cam.CamEvent.closeCam])).activeTracks = [] ∧
      (Cam.camRun Cam.camInit (es ++ [Cam.CamEvent.closeCam])).cameraStream = none ∧
      (Cam.camRun Cam.camInit (es ++ [Cam.CamEvent.closeCam])).isCameraOpen = false) ∧
    (Cam.camWB Cam.camInit (es ++ [Cam.CamEvent.unmount]) = true →
      (Cam.camRun Cam.camInit (es ++ [Cam.CamEvent.unmount])).activeTracks = [] ∧
      (Cam.camRun Cam.camInit (es ++ [Cam.CamEvent.unmount])).cameraStream = none) := by
  constructor
  · intro hwb
    rw [Cam.camWB_append, Bool.and_eq_true] at hwb
    have hinv := Cam.camInv_run Cam.camInit es Cam.camInv_init hwb.1
    have h := Cam.stopCamera_of_inv (Cam.camRun Cam.camInit es) hinv
    rw [Cam.camRun_append]
    exact ⟨h.1, h.2, rfl⟩
  · intro hwb
    rw [Cam.camWB_append, Bool.and_eq_true] at hwb
    have hinv := Cam.camInv_run Cam.camInit es Cam.camInv_init hwb.1
    have h := Cam.stopCamera_of_inv (Cam.camRun Cam.camInit es) hinv
    rw [Cam.camRun_append]
    exact ⟨h.1, h.2⟩

/-- Witness for C6 (amended): a concrete open, grant, close sequence ends
with no active tracks. -/
theorem camera_settled_close_releases_tracks_witness :
    Cam.camWB Cam.camInit
        ([Cam.CamEvent.openCam, Cam.CamEvent.grant [0, 1]] ++ [Cam.CamEvent.closeCam])
      = true ∧
    (Cam.camRun Cam.camInit
        ([Cam.CamEvent.openCam, Cam.CamEvent.grant [0, 1]] ++ [Cam.CamEvent.closeCam])).activeTracks
      = [] := by
  refine ⟨by decide, ?_⟩
  exact ((camera_settled_close_releases_tracks
    [Cam.CamEvent.openCam, Cam.CamEvent.grant [0, 1]]).1 (by decide)).1

/-- C7: a final camera-acquisition rejection surfaces exactly the message
that `startCamera`'s catch clause assigns to the browser-reported error
name — one of the four categories (permission denied, no device found,
device busy, other/unknown) — while the overlay flag, stream and tracks are
untouched (the overlay stays open if it was open, the error showing inline)
and no new acquisition is started (no automatic retry). -/
theorem camera_error_four_categories (s : Cam.CamState) (name msg : String) :
    (Cam.camStep s (Cam.CamEvent.deny name msg)).cameraError
      = some (Cam.classifyCameraError name msg) ∧
    (Cam.camStep s (Cam.CamEvent.deny name msg)).isCameraOpen = s.isCameraOpen ∧
    (Cam.camStep s (Cam.CamEvent.deny name msg)).acquisitionPending = false ∧
    (Cam.camStep s (Cam.CamEvent.deny name msg)).cameraStream = s.cameraStream ∧
    (Cam.camStep s (Cam.CamEvent.deny name msg)).activeTracks = s.activeTracks ∧
    (Cam.classifyCameraError name msg = Cam.permissionDeniedMsg ∨
     Cam.classifyCameraError name msg = Cam.noCameraMsg ∨
     Cam.classifyCameraError name msg = Cam.cameraBusyMsg ∨
     Cam.classifyCameraError name msg = Cam.unknownCameraMsg msg) ∧
    ((name = "NotAllowedError" ∨ name = "PermissionDeniedError") →
      Cam.classifyCameraError name msg = Cam.permissionDeniedMsg) ∧
    ((name = "NotFoundError" ∨ name = "DevicesNotFoundError") →
      Cam.classifyCameraError name msg = Cam.noCameraMsg) ∧
    ((name = "NotReadableError" ∨ name = "TrackStartError") →
      Cam.classifyCameraError name msg = Cam.cameraBusyMsg) ∧
    ((name ≠ "NotAllowedError" ∧ name ≠ "PermissionDeniedError" ∧
      name ≠ "NotFoundError" ∧ name ≠ "DevicesNotFoundError" ∧
      name ≠ "NotReadableError" ∧ name ≠ "TrackStartError") →
      Cam.classifyCameraError name msg = Cam.unknownCameraMsg msg) ∧
    (Cam.permissionDeniedMsg ≠ Cam.noCameraMsg ∧
     Cam.permissionDeniedMsg ≠ Cam.cameraBusyMsg ∧
     Cam.noCameraMsg ≠ Cam.cameraBusyMsg) := by
  refine ⟨rfl, rfl, rfl, rfl, rfl, ?_, ?_, ?_, ?_, ?_, by decide⟩
  · unfold Cam.classifyCameraError
    split_ifs <;> simp
  · rintro (h | h) <;> simp [Cam.classifyCameraError, h]
  · rintro (h | h) <;> simp [Cam.classifyCameraError, h]
  · rintro (h | h) <;> simp [Cam.classifyCameraError, h]
  · rintro ⟨n1, n2, n3, n4, n5, n6⟩
    unfold Cam.classifyCameraError
    rw [if_neg (by simp [n1, n2]), if_neg (by simp [n3, n4]), if_neg (by simp [n5, n6])]

/-- Witness for C7: a concrete permission-denied rejection on the initial
state. -/
theorem camera_error_four_categories_witness :
    (Cam.camStep Cam.camInit
        (Cam.CamEvent.deny "NotAllowedError" "Permission denied")).cameraError
      = some Cam.permissionDeniedMsg ∧
    (Cam.camStep Cam.camInit
        (Cam.CamEvent.deny "NotAllowedError" "Permission denied")).isCameraOpen
      = Cam.camInit.isCameraOpen := by
  have h := camera_error_four_categories Cam.camInit "NotAllowedError" "Permission denied"
  refine ⟨?_, h.2.1⟩
  rw [h.1, h.2.2.2.2.2.2.1 (Or.inl rfl)]

namespace Bench

/-- `type DatasetKey = 'swedish' | 'flavia' | 'philippine'`. -/
inductive DatasetKey where
  | swedish
  | flavia
  | philippine
deriving DecidableEq, BEq

/-- One entry of the `DATASETS` constant. -/
structure DatasetProfile where
  key : DatasetKey
  label : String
  subtitle : String
  samples : Nat
  classes : Nat
  mockAccuracy : ℚ
  mockSelectedFeatures : Nat
deriving DecidableEq

/-- `DATASETS[0]`: the Swedish Leaf profile. -/
def swedishProfile : DatasetProfile :=
  { key := DatasetKey.swedish
    label := "Swedish Leaf"
    subtitle := "Automatic Swedish leaf dataset"
    samples := 1125
    classes := 15
    mockAccuracy := (96.8 : ℚ)
    mockSelectedFeatures := 45 }

/-- `DATASETS[1]`: the Flavia profile. -/
def flaviaProfile : DatasetProfile :=
  { key := DatasetKey.flavia
    label := "Flavia"
    subtitle := "Flavia leaf dataset"
    samples := 1907
    classes := 32
    mockAccuracy := (95.1 : ℚ)
    mockSelectedFeatures := 52 }

/-- `DATASETS[2]`: the Philippine Medicinal profile. -/
def philippineProfile : DatasetProfile :=
  { key := DatasetKey.philippine
    label := "Philippine Medicinal"
    subtitle := "Local medicinal plant leaves"
    samples := 1500
    classes := 25
    mockAccuracy := (94.3 : ℚ)
    mockSelectedFeatures := 40 }

/-- The `DATASETS` constant. -/
def DATASETS : List DatasetProfile :=
  [swedishProfile, flaviaProfile, philippineProfile]

/-- A `Record<DatasetKey, α>`. -/
structure PerDataset (α : Type) where
  swedish : α
  flavia : α
  philippine : α
deriving DecidableEq

/-- Indexing a `Record<DatasetKey, α>`. -/
def PerDataset.get {α : Type} (p : PerDataset α) : DatasetKey → α
  | DatasetKey.swedish => p.swedish
  | DatasetKey.flavia => p.flavia
  | DatasetKey.philippine => p.philippine

/-- Updating one entry of a `Record<DatasetKey, α>`. -/
def PerDataset.set {α : Type} (p : PerDataset α) : DatasetKey → α → PerDataset α
  | DatasetKey.swedish, v => { p with swedish := v }
  | DatasetKey.flavia, v => { p with flavia := v }
  | DatasetKey.philippine, v => { p with philippine := v }

/-- Benchmark stage enumeration
(`'idle' | 'uploading' | 'extracting' | 'optimizing' | 'done'`). -/
inductive BStage where
  | idle
  | uploading
  | extracting
  | optimizing
  | done
deriving DecidableEq

/-- The `RunSummary` record pushed into the comparison history. -/
structure RunSummary where
  id : Nat
  datasetLabel : String
  sampleName : Option String
  species : Option String
  confidence : Option ℚ
  before : Option Nat
  after : Option Nat
deriving DecidableEq

/-- A file of an attached folder: `name`, declared mime `type` and
`webkitRelativePath` (empty when the browser supplies none). -/
structure BenchFile where
  name : String
  type : String
  webkitRelativePath : String
deriving DecidableEq

/-- The refs of the benchmark/training component. -/
structure BenchState where
  selectedDatasetKey : DatasetKey
  selectedFileName : Option String
  datasetFileNames : PerDataset (Option String)
  datasetSampleNames : PerDataset (List String)
  stage : BStage
  predictedSpecies : Option String
  confidence : Option ℚ
  featureBefore : Option Nat
  featureAfter : Option Nat
  runCounter : Nat
  previousRuns : List RunSummary
  compareBaseline : Bool
  optimizationProgress : ℚ
deriving DecidableEq

/-- Initial ref values of the benchmark component. -/
def benchInit : BenchState :=
  { selectedDatasetKey := DatasetKey.swedish
    selectedFileName := none
    datasetFileNames := ⟨none, none, none⟩
    datasetSampleNames := ⟨[], [], []⟩
    stage := BStage.idle
    predictedSpecies := none
    confidence := none
    featureBefore := none
    featureAfter := none
    runCounter := 0
    previousRuns := []
    compareBaseline := false
    optimizationProgress := 0 }

/-- The `selectedDataset` computed:
`DATASETS.find((d) => d.key === selectedDatasetKey.value) ?? DATASETS[0]`. -/
def selectedDataset (s : BenchState) : DatasetProfile :=
  (DATASETS.find? (fun d => d.key == s.selectedDatasetKey)).getD swedishProfile

/-- `formatPathLabel`: the last path segment (splitting at `/` or `\`),
falling back to the whole raw string when that segment is empty. -/
def formatPathLabel (raw : String) : String :=
  if lastPathSegment raw = "" then raw else lastPathSegment raw

/-- `inferDatasetKeyFromPath`: case-insensitive substring match of
`swedish`, `flavia`, `philippine`/`medicinal` against a raw path. -/
def inferDatasetKeyFromPath (raw : String) : Option DatasetKey :=
  if strIncludes (lowerStr raw) "swedish" then some DatasetKey.swedish
  else if strIncludes (lowerStr raw) "flavia" then some DatasetKey.flavia
  else if strIncludes (lowerStr raw) "philippine" || strIncludes (lowerStr raw) "medicinal" then
    some DatasetKey.philippine
  else none

/-- `resetResults` of the benchmark component. -/
def resetResults (s : BenchState) : BenchState :=
  { s with
    predictedSpecies := none
    confidence := none
    featureBefore := none
    featureAfter := none
    optimizationProgress := 0 }

/-- The raw path of a file: `webkitRelativePath` when it is a non-empty
string, the file `name` otherwise. -/
def fileRawPath (f : BenchFile) : String :=
  if f.webkitRelativePath = "" then f.name else f.webkitRelativePath

/-- The image-file filter of `handleDatasetFiles`: a lowercased declared
mime type starting with `image/`, or a known image extension on the
lowercased name. -/
def isImageFile (f : BenchFile) : Bool :=
  strStartsWith (lowerStr f.type) "image/" ||
    strEndsWith (lowerStr f.name) ".jpg" ||
    strEndsWith (lowerStr f.name) ".jpeg" ||
    strEndsWith (lowerStr f.name) ".png" ||
    strEndsWith (lowerStr f.name) ".tif" ||
    strEndsWith (lowerStr f.name) ".tiff"

/-- The tail of `handleDatasetFiles`: when a first sample exists, its
formatted label is stored as the per-dataset folder/file label. -/
def storeFirstLabel (s : BenchState) (key : DatasetKey) (samples : List BenchFile) :
    BenchState :=
  match samples.head? with
  | some fst =>
    { s with
      datasetFileNames :=
        s.datasetFileNames.set key (some (formatPathLabel (fileRawPath fst))) }
  | none => s

/-- `handleDatasetFiles`: infers a dataset key from the first file's raw
path (switching the selection on success), prefers the image files of the
folder (falling back to all files), and stores up to three formatted sample
names plus the first sample's label under the target key. -/
def handleDatasetFiles (s : BenchState) (files : List BenchFile) : BenchState :=
  match files with
  | [] => s
  | first :: _ =>
    let inferredKey := inferDatasetKeyFromPath (fileRawPath first)
    let currentKey := inferredKey.getD s.selectedDatasetKey
    let s1 :=
      match inferredKey with
      | some k => { s with selectedDatasetKey := k }
      | none => s
    let imageFiles := files.filter isImageFile
    let chosen := if imageFiles.length > 0 then imageFiles else files
    let samples := chosen.take 3
    let s2 :=
      { s1 with
        datasetSampleNames :=
          s1.datasetSampleNames.set currentKey
            (samples.map (fun f => formatPathLabel (fileRawPath f))) }
    storeFirstLabel s2 currentKey samples

/-- Modelled from the spec: the dataset-profile inference as the spec
states it — "a case-insensitive substring match against the profile
keys/names in the file paths" of the folder's files, i.e. over every file
of the folder, not just the first one.  Used only to compare the spec's
wording with `handleDatasetFiles`. -/
def specInferDatasetKey (files : List BenchFile) : Option DatasetKey :=
  files.findSome? (fun f => inferDatasetKeyFromPath (fileRawPath f))

/-- The start of `runMockPipeline`: enters the `uploading` stage. -/
def pipelineStart (s : BenchState) : BenchState :=
  { s with stage := BStage.uploading }

/-- The 500 ms timer of `runMockPipeline`: enters `extracting`. -/
def pipelineTimer1 (s : BenchState) : BenchState :=
  { s with stage := BStage.extracting }

/-- The 1100 ms timer: enters `optimizing` and restarts the progress ramp. -/
def pipelineTimer2 (s : BenchState) : BenchState :=
  { s with stage := BStage.optimizing, optimizationProgress := 0 }

/-- One `requestAnimationFrame` step of the optimization ramp: writes the
clamped elapsed fraction into `optimizationProgress` (the stage is read
only to decide whether to schedule another frame, never written). -/
def optimizationFrameStep (s : BenchState) (elapsed duration : ℚ) : BenchState :=
  { s with optimizationProgress := min 1 (elapsed / duration) }

/-- The per-dataset mock species literal of the 900 ms timer. -/
def mockSpeciesFor (k : DatasetKey) : String :=
  match k with
  | DatasetKey.swedish => "Quercus robur (English Oak)"
  | DatasetKey.flavia => "Acer palmatum (Japanese Maple)"
  | DatasetKey.philippine => "Vitex negundo (Lagundi)"

/-- The `RunSummary` constructed by the 900 ms timer from the state it runs
in (ids are incremented first, results read from the just-set refs). -/
def mkRunSummary (s : BenchState) : RunSummary :=
  { id := s.runCounter + 1
    datasetLabel := (selectedDataset s).label
    sampleName := s.selectedFileName
    species := some (mockSpeciesFor (selectedDataset s).key)
    confidence := some (selectedDataset s).mockAccuracy
    before := some 2048
    after := some (selectedDataset s).mockSelectedFeatures }

/-- `[summary, ...previousRuns.value].slice(0, 4)`. -/
def pushRun (r : RunSummary) (l : List RunSummary) : List RunSummary :=
  (r :: l).take 4

/-- The 900 ms timer of `runMockPipeline`: enters `done`, publishes the
mock results of the selected dataset (species, accuracy as confidence,
2048 → mockSelectedFeatures) and pushes the run summary into the bounded
history. -/
def pipelineTimer3 (s : BenchState) : BenchState :=
  { s with
    stage := BStage.done
    featureBefore := some 2048
    predictedSpecies := some (mockSpeciesFor (selectedDataset s).key)
    confidence := some (selectedDataset s).mockAccuracy
    featureAfter := some (selectedDataset s).mockSelectedFeatures
    runCounter := s.runCounter + 1
    previousRuns := pushRun (mkRunSummary s) s.previousRuns }

/-- `runSampleFromDataset`: records the formatted sample name, resets the
result refs and starts the mock pipeline. -/
def runSampleFromDataset (name : String) (s : BenchState) : BenchState :=
  pipelineStart (resetResults { s with selectedFileName := some (formatPathLabel name) })

/-- A whole simulated run: the pipeline start followed by its three timers. -/
def completeRun (s : BenchState) : BenchState :=
  pipelineTimer3 (pipelineTimer2 (pipelineTimer1 (pipelineStart s)))

/-- The baseline toggle: `compareBaseline.value = !compareBaseline.value`. -/
def toggleCompareBaseline (s : BenchState) : BenchState :=
  { s with compareBaseline := !s.compareBaseline }

/-- Visibility of the static baseline-comparison block: it sits inside the
stage-is-done results branch under `v-if="compareBaseline"`. -/
def baselineBlockVisible (s : BenchState) : Bool :=
  (s.stage == BStage.done) && s.compareBaseline

/-- The accuracy figure hard-coded in the results card's Model Accuracy
readout (the template renders the literal `95.1%` there, next to the
literal caption `Validated on 1,907 images.`, for every dataset). -/
def modelAccuracyDisplay : ℚ := (95.1 : ℚ)

end Bench

namespace Bench

theorem PerDataset.get_set_self {α : Type} (p : PerDataset α) (k : DatasetKey) (v : α) :
    (p.set k v).get k = v := by
  cases k <;> rfl

theorem storeFirstLabel_selectedDatasetKey (s : BenchState) (k : DatasetKey)
    (l : List BenchFile) : (storeFirstLabel s k l).selectedDatasetKey = s.selectedDatasetKey := by
  cases hl : l.head? <;> simp [storeFirstLabel, hl]

theorem storeFirstLabel_datasetSampleNames (s : BenchState) (k : DatasetKey)
    (l : List BenchFile) : (storeFirstLabel s k l).datasetSampleNames = s.datasetSampleNames := by
  cases hl : l.head? <;> simp [storeFirstLabel, hl]

theorem formatPathLabel_of_ne (raw : String) (h : lastPathSegment raw ≠ "") :
    formatPathLabel raw = lastPathSegment raw := by
  simp [formatPathLabel, h]

end Bench

/-- C2: running the pipeline to completion with each of the three profiles
selected publishes that profile's constants into the result state (Swedish
96.8 and 45, Flavia 95.1 and 52, Philippine 94.3 and 40, always from 2048
features), but the Model Accuracy readout of the results card is the
hard-coded figure 95.1 — Flavia's value — which differs from the Swedish
and Philippine constants the claim requires it to surface. -/
theorem benchmark_accuracy_display_mismatch :
    (Bench.completeRun
        { Bench.benchInit with selectedDatasetKey := Bench.DatasetKey.swedish }).confidence
      = some (96.8 : ℚ) ∧
    (Bench.completeRun
        { Bench.benchInit with selectedDatasetKey := Bench.DatasetKey.swedish }).featureBefore
      = some 2048 ∧
    (Bench.completeRun
        { Bench.benchInit with selectedDatasetKey := Bench.DatasetKey.swedish }).featureAfter
      = some 45 ∧
    (Bench.completeRun
        { Bench.benchInit with selectedDatasetKey := Bench.DatasetKey.flavia }).confidence
      = some (95.1 : ℚ) ∧
    (Bench.completeRun
        { Bench.benchInit with selectedDatasetKey := Bench.DatasetKey.flavia }).featureAfter
      = some 52 ∧
    (Bench.completeRun
        { Bench.benchInit with selectedDatasetKey := Bench.DatasetKey.philippine }).confidence
      = some (94.3 : ℚ) ∧
    (Bench.completeRun
        { Bench.benchInit with selectedDatasetKey := Bench.DatasetKey.philippine }).featureAfter
      = some 40 ∧
    Bench.modelAccuracyDisplay = (95.1 : ℚ) ∧
    Bench.modelAccuracyDisplay ≠ (96.8 : ℚ) ∧
    Bench.modelAccuracyDisplay ≠ (94.3 : ℚ) := by
  refine ⟨rfl, rfl, rfl, rfl, rfl, rfl, rfl, rfl, ?_, ?_⟩ <;>
    norm_num [Bench.modelAccuracyDisplay]

/-- C3: the 900 ms completion timer always leaves the run history with at
most 4 entries, its first entry being exactly the summary of the run that
just completed (same species, confidence, feature counts, sample name and
dataset label as the published results). -/
theorem benchmark_history_cap_and_order (s : Bench.BenchState) :
    (Bench.pipelineTimer3 s).previousRuns.length ≤ 4 ∧
    (Bench.pipelineTimer3 s).previousRuns.head? = some (Bench.mkRunSummary s) ∧
    (Bench.mkRunSummary s).species = (Bench.pipelineTimer3 s).predictedSpecies ∧
    (Bench.mkRunSummary s).confidence = (Bench.pipelineTimer3 s).confidence ∧
    (Bench.mkRunSummary s).before = (Bench.pipelineTimer3 s).featureBefore ∧
    (Bench.mkRunSummary s).after = (Bench.pipelineTimer3 s).featureAfter ∧
    (Bench.mkRunSummary s).sampleName = s.selectedFileName ∧
    (Bench.mkRunSummary s).datasetLabel = (Bench.selectedDataset s).label := by
  refine ⟨?_, ?_, rfl, rfl, rfl, rfl, rfl, rfl⟩
  · show (Bench.pushRun (Bench.mkRunSummary s) s.previousRuns).length ≤ 4
    simp [Bench.pushRun, List.length_take]
  · show (Bench.pushRun (Bench.mkRunSummary s) s.previousRuns).head? = _
    simp [Bench.pushRun]

/-- C5 counterexample: a folder whose first file path matches no profile
token but whose second file path contains `swedish` — a match over the
folder's file paths (the spec-modelled inference) yields the Swedish
profile, yet `handleDatasetFiles` infers nothing from the first file and
leaves the active selection (Flavia here) unswitched. -/
theorem dataset_inference_first_file_counterexample :
    Bench.specInferDatasetKey
        [⟨"leaf.jpg", "image/jpeg", ""⟩, ⟨"swedish_leaf_001.jpg", "image/jpeg", ""⟩]
      = some Bench.DatasetKey.swedish ∧
    Bench.inferDatasetKeyFromPath
        (Bench.fileRawPath ⟨"leaf.jpg", "image/jpeg", ""⟩) = none ∧
    (Bench.handleDatasetFiles
        { Bench.benchInit with selectedDatasetKey := Bench.DatasetKey.flavia }
        [⟨"leaf.jpg", "image/jpeg", ""⟩,
         ⟨"swedish_leaf_001.jpg", "image/jpeg", ""⟩]).selectedDatasetKey
      = Bench.DatasetKey.flavia := by
  decide

/-- C5 (amended): dataset-profile inference is the case-insensitive
substring match of the profile tokens (`swedish`, `flavia`, `philippine`,
`medicinal`) against the raw path (relative path or name) of the folder's
first file only, and the active dataset selection after attaching a folder
is the inferred profile when that match succeeds and the previous selection
otherwise. -/
theorem dataset_inference_and_switch (s : Bench.BenchState) (first : Bench.BenchFile)
    (rest : List Bench.BenchFile) :
    (Bench.handleDatasetFiles s (first :: rest)).selectedDatasetKey
      = (Bench.inferDatasetKeyFromPath (Bench.fileRawPath first)).getD
          s.selectedDatasetKey := by
  cases hk : Bench.inferDatasetKeyFromPath (Bench.fileRawPath first) with
  | none =>
    simp only [Bench.handleDatasetFiles, hk, Bench.storeFirstLabel_selectedDatasetKey,
      Option.getD_none]
  | some k =>
    simp only [Bench.handleDatasetFiles, hk, Bench.storeFirstLabel_selectedDatasetKey,
      Option.getD_some]

/-- C8: toggling the baseline-comparison switch flips `compareBaseline` and
nothing else — every numeric result field, the history, the stage, the
selections and the per-dataset data are untouched — so only the visibility
of the static comparison block changes. -/
theorem baseline_toggle_visibility_only (s : Bench.BenchState) :
    (Bench.toggleCompareBaseline s).confidence = s.confidence ∧
    (Bench.toggleCompareBaseline s).predictedSpecies = s.predictedSpecies ∧
    (Bench.toggleCompareBaseline s).featureBefore = s.featureBefore ∧
    (Bench.toggleCompareBaseline s).featureAfter = s.featureAfter ∧
    (Bench.toggleCompareBaseline s).optimizationProgress = s.optimizationProgress ∧
    (Bench.toggleCompareBaseline s).previousRuns = s.previousRuns ∧
    (Bench.toggleCompareBaseline s).runCounter = s.runCounter ∧
    (Bench.toggleCompareBaseline s).stage = s.stage ∧
    (Bench.toggleCompareBaseline s).selectedDatasetKey = s.selectedDatasetKey ∧
    (Bench.toggleCompareBaseline s).selectedFileName = s.selectedFileName ∧
    (Bench.toggleCompareBaseline s).datasetFileNames = s.datasetFileNames ∧
    (Bench.toggleCompareBaseline s).datasetSampleNames = s.datasetSampleNames ∧
    Bench.selectedDataset (Bench.toggleCompareBaseline s) = Bench.selectedDataset s ∧
    (Bench.toggleCompareBaseline s).compareBaseline = !s.compareBaseline ∧
    Bench.baselineBlockVisible (Bench.toggleCompareBaseline s)
      = ((s.stage == Bench.BStage.done) && !s.compareBaseline) := by
  exact ⟨rfl, rfl, rfl, rfl, rfl, rfl, rfl, rfl, rfl, rfl, rfl, rfl, rfl, rfl, rfl⟩

/-- C9: a benchmark run started by `runSampleFromDataset` begins with every
result field reset to empty and the stage at `uploading`; each timer then
moves the stage unconditionally (for every state, i.e. without branching on
any computation result) to `extracting`, `optimizing` and `done` in that
order, and the animation frames of the progress ramp never write the stage. -/
theorem benchmark_linear_stage_sequence (s : Bench.BenchState) (name : String) :
    (Bench.runSampleFromDataset name s).stage = Bench.BStage.uploading ∧
    (Bench.runSampleFromDataset name s).predictedSpecies = none ∧
    (Bench.runSampleFromDataset name s).confidence = none ∧
    (Bench.runSampleFromDataset name s).featureBefore = none ∧
    (Bench.runSampleFromDataset name s).featureAfter = none ∧
    (Bench.runSampleFromDataset name s).optimizationProgress = 0 ∧
    (Bench.pipelineTimer1 (Bench.runSampleFromDataset name s)).stage
      = Bench.BStage.extracting ∧
    (Bench.pipelineTimer2 (Bench.pipelineTimer1 (Bench.runSampleFromDataset name s))).stage
      = Bench.BStage.optimizing ∧
    (Bench.pipelineTimer3
        (Bench.pipelineTimer2 (Bench.pipelineTimer1 (Bench.runSampleFromDataset name s)))).stage
      = Bench.BStage.done ∧
    (∀ t : Bench.BenchState, (Bench.pipelineStart t).stage = Bench.BStage.uploading) ∧
    (∀ t : Bench.BenchState, (Bench.pipelineTimer1 t).stage = Bench.BStage.extracting) ∧
    (∀ t : Bench.BenchState, (Bench.pipelineTimer2 t).stage = Bench.BStage.optimizing) ∧
    (∀ t : Bench.BenchState, (Bench.pipelineTimer3 t).stage = Bench.BStage.done) ∧
    (∀ t : Bench.BenchState, ∀ e d : ℚ,
      (Bench.optimizationFrameStep t e d).stage = t.stage) := by
  exact ⟨rfl, rfl, rfl, rfl, rfl, rfl, rfl, rfl, rfl,
    fun t => rfl, fun t => rfl, fun t => rfl, fun t => rfl, fun t e d => rfl⟩

/-- C10: attaching a non-empty folder stores, under the target profile key,
at most three sample names, taken from the folder's image files (by
lowercased `image/` mime prefix or known image extension) when at least one
exists and from the folder's first files otherwise, each name being the
last path segment of the file's relative path or name (whenever those last
segments are non-empty, as they are for genuine file paths). -/
theorem sample_placeholder_names (s : Bench.BenchState) (first : Bench.BenchFile)
    (rest : List Bench.BenchFile)
    (h : ∀ f ∈ first :: rest, lastPathSegment (Bench.fileRawPath f) ≠ "") :
    (((Bench.handleDatasetFiles s (first :: rest)).datasetSampleNames).get
        ((Bench.inferDatasetKeyFromPath (Bench.fileRawPath first)).getD
          s.selectedDatasetKey)).length ≤ 3 ∧
    ((Bench.handleDatasetFiles s (first :: rest)).datasetSampleNames).get
        ((Bench.inferDatasetKeyFromPath (Bench.fileRawPath first)).getD
          s.selectedDatasetKey)
      = ((if ((first :: rest).filter Bench.isImageFile).length > 0 then
            (first :: rest).filter Bench.isImageFile
          else first :: rest).take 3).map
          (fun f => lastPathSegment (Bench.fileRawPath f)) := by
  have hstored :
      ((Bench.handleDatasetFiles s (first :: rest)).datasetSampleNames).get
          ((Bench.inferDatasetKeyFromPath (Bench.fileRawPath first)).getD
            s.selectedDatasetKey)
        = ((if ((first :: rest).filter Bench.isImageFile).length > 0 then
              (first :: rest).filter Bench.isImageFile
            else first :: rest).take 3).map
            (fun f => Bench.formatPathLabel (Bench.fileRawPath f)) := by
    cases hk : Bench.inferDatasetKeyFromPath (Bench.fileRawPath first) with
    | none =>
      simp only [Bench.handleDatasetFiles, hk, Bench.storeFirstLabel_datasetSampleNames,
        Option.getD_none, Bench.PerDataset.get_set_self]
    | some k =>
      simp only [Bench.handleDatasetFiles, hk, Bench.storeFirstLabel_datasetSampleNames,
        Option.getD_some, Bench.PerDataset.get_set_self]
  have hsub :
      ∀ f ∈ (if ((first :: rest).filter Bench.isImageFile).length > 0 then
          (first :: rest).filter Bench.isImageFile
        else first :: rest).take 3, f ∈ first :: rest := by
    intro f hf
    have hf2 := List.take_subset 3 _ hf
    by_cases himg : ((first :: rest).filter Bench.isImageFile).length > 0
    · rw [if_pos himg] at hf2
      exact List.filter_subset' _ hf2
    · rw [if_neg himg] at hf2
      exact hf2
  constructor
  · rw [hstored, List.length_map]
    exact List.length_take_le 3 _
  · rw [hstored]
    apply List.map_congr_left
    intro f hf
    exact Bench.formatPathLabel_of_ne _ (h f (hsub f hf))

/-- Witness for C10: a concrete folder with one text file and two images
under a `swedish` directory stores the two image names. -/
theorem sample_placeholder_names_witness :
    (∀ f ∈ ([⟨"readme.txt", "text/plain", "swedish/readme.txt"⟩,
             ⟨"a.jpg", "image/jpeg", "swedish/a.jpg"⟩,
             ⟨"b.png", "image/png", "swedish/b.png"⟩] : List Bench.BenchFile),
      lastPathSegment (Bench.fileRawPath f) ≠ "") ∧
    ((Bench.handleDatasetFiles Bench.benchInit
        [⟨"readme.txt", "text/plain", "swedish/readme.txt"⟩,
         ⟨"a.jpg", "image/jpeg", "swedish/a.jpg"⟩,
         ⟨"b.png", "image/png", "swedish/b.png"⟩]).datasetSampleNames).get
        Bench.DatasetKey.swedish
      = ["a.jpg", "b.png"] := by
  constructor
  · decide
  · have h := (sample_placeholder_names Bench.benchInit
      ⟨"readme.txt", "text/plain", "swedish/readme.txt"⟩
      [⟨"a.jpg", "image/jpeg", "swedish/a.jpg"⟩, ⟨"b.png", "image/png", "swedish/b.png"⟩]
      (by decide)).2
    have hkey :
        (Bench.inferDatasetKeyFromPath
            (Bench.fileRawPath ⟨"readme.txt", "text/plain", "swedish/readme.txt"⟩)).getD
          Bench.benchInit.selectedDatasetKey = Bench.DatasetKey.swedish := by decide
    rw [hkey] at h
    rw [h]
    decide
